import Mathlib

/-!
Verification development for the pig_manager application (src/app.py and
src/streamlit_feature_catalog/features/table_filters/var_002.py).

The embedding models the data-transformation core of the application:

* the fixed cell-to-field mapping of a PIG spreadsheet into a flat record
  (functions extract_cell_value and process_pig_file in src/app.py);
* the upsert-by-key merge of an accepted record into the pig_data table
  (the "Update in app Salsify view" handler in show_upload_interface);
* the publish pipeline that joins the local dataset with a column slice of
  the vendor spreadsheet (upload_to_salsify);
* the progressive filter engine (class DataFilter in var_002.py).

Tables are lists of rows; a row is a list of cell strings positioned by a
schema (a list of column names).  A spreadsheet grid cell is an
Option String, with none standing for a NaN / empty cell.
-/

namespace PigManager

/-- Canonical 45-name column order of a mapped record, copied from the
COLUMN_ORDER constant of src/app.py (lines 34-47). -/
def COLUMN_ORDER : List String :=
  ["Item", "Category", "About", "Bullet Copy", "Heading", "Spanish Bullet Copy",
   "Subheading", "Enhanced Product Name", "Bullet Copy 1", "Bullet Copy 2",
   "Bullet Copy 3", "Bullet Copy 4", "Bullet Copy 5", "Bullet Copy 6",
   "Bullet Copy 7", "Bullet Copy 8", "Bullet Copy 9", "Bullet Copy 10",
   "Feature/Benefit 1", "Feature/Benefit 2", "FeatureBenefit 3", "Feature/Benefit 4",
   "FeatureBenefit 5", "Feature/Benefit 6", "Feature/Benefit 7", "Feature/Benefit 8",
   "Feature/Benefit 9", "Feature/Benefit 10", "Keywords", "Long Description",
   "Product ID", "Product Title", "SEO Enhanced Bullets 1", "SEO Enhanced Bullets 2",
   "SEO Enhanced Bullets 3", "SEO Enhanced Bullets 4", "SEO Enhanced Bullets 5",
   "SEO Enhanced Bullets 6", "SEO Enhanced Bullets 7", "SEO Enhanced Bullets 8",
   "SEO Enhanced Bullets 9", "SEO Enhanced Bullets 10", "Short Description",
   "USP", "Brand"]

/-- Column order of the pig_data store table: the explicit 46-name selection
applied to the edited record before insertion (src/app.py lines 870-880);
it is COLUMN_ORDER with "Status" inserted at position 3. -/
def STORE_COLUMNS : List String :=
  ["Item", "Category", "About", "Status", "Bullet Copy", "Heading",
   "Spanish Bullet Copy", "Subheading", "Enhanced Product Name", "Bullet Copy 1",
   "Bullet Copy 2", "Bullet Copy 3", "Bullet Copy 4", "Bullet Copy 5",
   "Bullet Copy 6", "Bullet Copy 7", "Bullet Copy 8", "Bullet Copy 9",
   "Bullet Copy 10", "Feature/Benefit 1", "Feature/Benefit 2", "FeatureBenefit 3",
   "Feature/Benefit 4", "FeatureBenefit 5", "Feature/Benefit 6", "Feature/Benefit 7",
   "Feature/Benefit 8", "Feature/Benefit 9", "Feature/Benefit 10", "Keywords",
   "Long Description", "Product ID", "Product Title", "SEO Enhanced Bullets 1",
   "SEO Enhanced Bullets 2", "SEO Enhanced Bullets 3", "SEO Enhanced Bullets 4",
   "SEO Enhanced Bullets 5", "SEO Enhanced Bullets 6", "SEO Enhanced Bullets 7",
   "SEO Enhanced Bullets 8", "SEO Enhanced Bullets 9", "SEO Enhanced Bullets 10",
   "Short Description", "USP", "Brand"]

/-- FIELD_MAPPINGS of src/app.py (lines 50-61): core fields with their source
cell references.  The default value component is always "not in pig" in the
source, so only the cell reference is kept. -/
def FIELD_MAPPINGS : List (String × String) :=
  [("Item", "B3"), ("Product ID", "B3"), ("Brand", "B2"), ("Product Title", "B4"),
   ("Enhanced Product Name", "B5"), ("USP", "B6"), ("Short Description", "B8"),
   ("Long Description", "B9"), ("Keywords", "B10")]

/-- BULLET_MAPPINGS of src/app.py (line 64): Bullet Copy i maps to cell
A(10+i) for i in 1..10. -/
def BULLET_MAPPINGS : List (String × String) :=
  (List.range 10).map (fun i => ("Bullet Copy " ++ toString (i + 1), "A" ++ toString (11 + i)))

/-- FEATURE_BENEFIT_MAPPINGS of src/app.py (lines 66-72), with the two
irregular names lacking a slash for slots 3 and 5 exactly as in the source. -/
def FEATURE_BENEFIT_MAPPINGS : List (String × String) :=
  [("Feature/Benefit 1", "B11"), ("Feature/Benefit 2", "B12"),
   ("FeatureBenefit 3", "B13"), ("Feature/Benefit 4", "B14"),
   ("FeatureBenefit 5", "B15"), ("Feature/Benefit 6", "B16"),
   ("Feature/Benefit 7", "B17"), ("Feature/Benefit 8", "B18"),
   ("Feature/Benefit 9", "B19"), ("Feature/Benefit 10", "B20")]

/-- SEO_BULLET_MAPPINGS of src/app.py (line 73): SEO Enhanced Bullets i maps
to cell C(10+i) for i in 1..10. -/
def SEO_BULLET_MAPPINGS : List (String × String) :=
  (List.range 10).map
    (fun i => ("SEO Enhanced Bullets " ++ toString (i + 1), "C" ++ toString (11 + i)))

/-- ALL_MAPPINGS of src/app.py (lines 77-82).  The python dict merge has
pairwise distinct keys across the four groups, so an association list with
first-match lookup has the same lookup semantics. -/
def ALL_MAPPINGS : List (String × String) :=
  FIELD_MAPPINGS ++ BULLET_MAPPINGS ++ FEATURE_BENEFIT_MAPPINGS ++ SEO_BULLET_MAPPINGS

/-- A spreadsheet grid as read by pd.read_excel with header=None: a list of
rows of optional cells, none standing for a NaN / empty cell. -/
abbrev Grid : Type := List (List (Option String))

/-- Parse of the row part of a cell reference, modelling int(ref[1:]): the
references in ALL_MAPPINGS are plain digit strings, so the model accepts a
nonempty all-digit string and fails (ValueError, caught by the source and
turned into the sentinel) on anything else. -/
def parseRowDigits (s : List Char) : Option Nat :=
  if s ≠ [] ∧ s.all (fun c => c.isDigit) then
    some (s.foldl (fun n c => n * 10 + (c.toNat - 48)) 0)
  else
    none

/-- Python list indexing semantics of df.iloc on the row axis: a negative
index counts from the end, anything still out of range raises IndexError,
which extract_cell_value catches.  Returns none on the error path. -/
def pyRowAt (g : Grid) (idx : Int) : Option (List (Option String)) :=
  let e : Int := if idx < 0 then idx + g.length else idx
  if 0 ≤ e ∧ e.toNat < g.length then
    some (g.getD e.toNat [])
  else
    none

/-- The cell lookup of extract_cell_value (src/app.py lines 425-445),
value = df.iloc[row][ord(col) - ord(A)].  Outcomes:

* ok (some v): the designated cell holds value v;
* ok none: a defaulting path the source catches with its
  except (IndexError, ValueError) handler or an explicit check — empty
  reference, unparseable row number (ValueError from int), row out of range
  (IndexError from df.iloc), or a NaN cell (pd.isna);
* error (): column position out of the range of the row — df.iloc[row] is a
  Series whose index is the integer RangeIndex of the frame columns, so the
  integer subscript is looked up as a LABEL and a missing or negative label
  raises KeyError, which the except clause does NOT catch. -/
def cellAt (g : Grid) (ref : String) : Except Unit (Option String) :=
  match ref.data with
  | [] => .ok none
  | c :: rest =>
    match parseRowDigits rest with
    | none => .ok none
    | some n =>
      match pyRowAt g ((n : Int) - 1) with
      | none => .ok none
      | some row =>
        let colIdx : Int := (c.toNat : Int) - ((65 : Nat) : Int)
        if 0 ≤ colIdx ∧ colIdx.toNat < row.length then
          match row.getD colIdx.toNat none with
          | none => .ok none
          | some v => .ok (some v)
        else
          .error ()

/-- Translation of extract_cell_value (src/app.py lines 425-445): a found
cell value is stringified and trimmed, every caught failure path yields the
sentinel "not in pig", and an out-of-range column label propagates as an
uncaught KeyError. -/
def extract_cell_value (g : Grid) (ref : String) : Except Unit String :=
  match cellAt g ref with
  | .error e => .error e
  | .ok none => .ok "not in pig"
  | .ok (some v) => .ok v.trim

/-- Record produced by process_pig_file (src/app.py lines 658-698) for an
uploaded grid: output_data starts with the sentinel for every COLUMN_ORDER
field and is overwritten, for each field of ALL_MAPPINGS with a nonempty
cell reference, by extract_cell_value.  Fields outside the mapping table
keep the sentinel.  The try/except around the whole body turns any uncaught
exception from the mapping loop into the failure return (False, None), so a
record is produced only when every mapped reference extracts without
raising; none models that failure return. -/
def process_pig_file (g : Grid) : Option (String → String) :=
  if ALL_MAPPINGS.all (fun p => (extract_cell_value g p.2).isOk) then
    some (fun field =>
      match List.lookup field ALL_MAPPINGS with
      | some ref =>
        if ref ≠ "" then (extract_cell_value g ref).toOption.getD "not in pig"
        else "not in pig"
      | none => "not in pig")
  else
    none

/-- Item values treated as malformed placeholder rows by the merge-in step
(the literal list of the two WHERE clauses at src/app.py lines 892-894). -/
def sentinelItems : List String := ["no item", "no_item"]

/-- Item value of a store row.  Item is the first column of both the store
schema (STORE_COLUMNS) and the local export schema. -/
def itemOf (r : List String) : String := r.headD ""

/-- One cell of the replacement edited_df.replace performs at src/app.py
line 881: the sentinel "not in pig" becomes the empty string, every other
value is untouched. -/
def cleanCell (v : String) : String := if v = "not in pig" then "" else v

/-- The edited grid record as it is prepared for insertion by the Update
handler (src/app.py lines 866-881): the Category and Status columns are
overwritten with the session selections, the columns are laid out in
STORE_COLUMNS order, and then every sentinel cell is replaced by the empty
string.  The edited grid is a total map from column name to value. -/
def prepareEdited (e : String → String) (c s : String) : List String :=
  (STORE_COLUMNS.map (fun col =>
    if col = "Status" then s else if col = "Category" then c else e col)).map cleanCell

/-- Translation of the pig_data rebuild of the Update handler (src/app.py
lines 889-906):

  CREATE OR REPLACE TABLE pig_data2 AS SELECT * FROM (
    SELECT * FROM pig_data   WHERE Item != k and Item not in (no item, no_item)
    UNION ALL
    SELECT * FROM edited_df  WHERE Item  = k and Item not in (no item, no_item))
  ORDER BY Item;
  CREATE OR REPLACE TABLE pig_data AS SELECT DISTINCT * FROM pig_data2;

The preceding DELETE FROM pig_data WHERE Item = k is subsumed by the
Item != k condition, and the inner ORDER BY only affects the (unspecified)
presentation order of the DISTINCT result, so the table produced is the
deduplicated union below. -/
def upsertMerge (store edited : List (List String)) (k : String) : List (List String) :=
  ((store.filter (fun r => decide (itemOf r ≠ k ∧ itemOf r ∉ sentinelItems))) ++
   (edited.filter (fun r => decide (itemOf r = k ∧ itemOf r ∉ sentinelItems)))).dedup

/-- Value of a named column in a row positioned by a schema. -/
def colVal (sch : List String) (row : List String) (col : String) : String :=
  row.getD (sch.indexOf col) ""

/-- Positional projection dropping the Status column, which sits at index 3
of STORE_COLUMNS; this models SELECT * EXCLUDE(Status). -/
def dropStatus (row : List String) : List String := row.eraseIdx 3

/-- Schema of the local side of the publish export: the store schema without
the Status column (SELECT DISTINCT * EXCLUDE(Status) at src/app.py
lines 1161-1164). -/
def LOCAL_COLUMNS : List String := STORE_COLUMNS.eraseIdx 3

/-- The local side of the publish export, translation of
SELECT DISTINCT * EXCLUDE(Status) FROM pig_data ORDER BY Item
(src/app.py lines 1161-1164): project Status away, collapse exact
duplicates, sort by Item. -/
def localView (store : List (List String)) : List (List String) :=
  ((store.map dropStatus).dedup).mergeSort (fun r t => decide (itemOf r ≤ itemOf t))

/-- A spreadsheet with a header row, as read by pd.read_excel with a
header: a list of column names and a list of data rows aligned with it. -/
structure VSheet where
  cols : List String
  rows : List (List String)
deriving DecidableEq

/-- Vendor column slice taken by upload_to_salsify (src/app.py
lines 1192-1214): if the vendor sheet has more than 66 columns
(zero-indexed positions 45 through 66 all exist), keep the first column
renamed to "Item" together with the 22 columns at positions 45..66;
otherwise the source warns and continues without vendor data (none).
The source selects the slice by column name; positional selection is
equivalent because the selected names are taken from these positions. -/
def sliceVendor (v : VSheet) : Option VSheet :=
  if 66 < v.cols.length then
    some { cols := "Item" :: ((v.cols.drop 45).take 22),
           rows := v.rows.map (fun r => r.headD "" :: ((r.drop 45).take 22)) }
  else
    none

/-- pd.unique over the concatenated Item columns (src/app.py line 1225):
first occurrences, in order. -/
def uniqueFirst (l : List String) : List String :=
  l.foldl (fun acc x => if x ∈ acc then acc else acc ++ [x]) []

/-- One side of the left join for a given key: the non-key cells of every
matching row, or a single all-empty tuple when the side has no match
(the NaN row a left join produces, after fillna with the empty string). -/
def joinSide (found : List (List String)) (width : Nat) : List (List String) :=
  match found with
  | [] => [List.replicate width ""]
  | ms => ms.map (fun r => r.drop 1)

/-- The merge of src/app.py lines 1223-1237: build the frame of all unique
Item values of either side, left-join the session data on Item, left-join
the vendor slice on Item, and fill the missing cells of non-overlapping
rows with the empty string.  A produced row is the key followed by the
44 non-key local cells followed by the 22 non-key vendor cells. -/
def mergeRows (session : List (List String)) (vendor : VSheet) : List (List String) :=
  (uniqueFirst (session.map itemOf ++ vendor.rows.map itemOf)).flatMap (fun k =>
    (joinSide (session.filter (fun r => decide (itemOf r = k)))
        (LOCAL_COLUMNS.length - 1)).flatMap
      (fun lp =>
        (joinSide (vendor.rows.filter (fun r => decide (itemOf r = k)))
            (vendor.cols.length - 1)).map
          (fun vp => k :: (lp ++ vp))))

/-- The export table built by upload_to_salsify from the session data and
the fetched vendor sheet (none when the download failed): when the vendor
slice is available and nonempty the merged table is produced, otherwise the
session data alone (src/app.py lines 1200-1241). -/
def publishExport (session : List (List String)) (fetched : Option VSheet) : VSheet :=
  match fetched.bind sliceVendor with
  | none => { cols := LOCAL_COLUMNS, rows := session }
  | some w =>
    if w.rows = [] then { cols := LOCAL_COLUMNS, rows := session }
    else { cols := LOCAL_COLUMNS ++ w.cols.drop 1, rows := mergeRows session w }

/-- Filter slots of the DataFilter engine (var_002.py): per slot index, the
chosen column (empty string while unset) and the selected values list
(empty while unset), exactly the per-slot session state the widgets read
and write. -/
abbrev FilterSlots : Type := List (String × List String)

/-- Slots that contribute a filter: a column was chosen and at least one
value selected.  This is the condition under which _render_filter_widget
returns a filter_info dict (var_002.py lines 103-142). -/
def activeFilters (slots : FilterSlots) : FilterSlots :=
  slots.filter (fun p => decide (p.1 ≠ "" ∧ p.2 ≠ []))

/-- Translation of DataFilter._apply_filters_up_to (var_002.py
lines 85-101): consider the first n slots, keep those with both a column
and a selection, and narrow the table by each in sequence with an
isin membership test. -/
def applyFiltersUpTo (cols : List String) (rows : List (List String))
    (slots : FilterSlots) (n : Nat) : List (List String) :=
  (activeFilters (slots.take n)).foldl
    (fun acc p => acc.filter (fun r => decide (colVal cols r p.1 ∈ p.2))) rows

/-- Translation of DataFilter.render (var_002.py lines 144-172): the result
it returns is _apply_filters_up_to applied at the NUMBER OF ACTIVE FILTERS,
i.e. the count of slots holding both a column and a nonempty selection. -/
def renderResult (cols : List String) (rows : List (List String))
    (slots : FilterSlots) : List (List String) :=
  applyFiltersUpTo cols rows slots (activeFilters slots).length

/-- A store row with the given Item value and empty text in the 45 remaining
STORE_COLUMNS positions, used for concrete instantiations. -/
def mkItemRow (item : String) : List String := item :: List.replicate 45 ""

/-- A store row with Item "A" and a distinguishing second cell. -/
def exRowDupA1 : List String := "A" :: "x" :: List.replicate 44 ""

/-- A second store row with Item "A" but a different second cell. -/
def exRowDupA2 : List String := "A" :: "y" :: List.replicate 44 ""

/-- Concrete one-column table used to exercise the filter engine. -/
def exFilterRows : List (List String) := [["x"], ["y"]]

/-- Filter-slot state in which slot 0 has a column but no selection while
slot 1 has a column and a selection: reachable by picking values in two
slots and then clearing the first multiselect. -/
def exFilterSlots : FilterSlots := [("c", []), ("c", ["x"])]

/-- Concrete vendor sheet with 67 header columns. -/
def exVendor67 : VSheet :=
  { cols := (List.range 67).map (fun i => "v" ++ toString i), rows := [] }

/-- Concrete vendor sheet with a single header column. -/
def exVendorShort : VSheet := { cols := ["Item"], rows := [["HB9"]] }

/-- Membership in the rebuilt pig_data table: a row survives the upsert
exactly when it is an old row with a different, non-sentinel Item, or an
edited row with the upserted Item, again non-sentinel. -/
theorem mem_upsertMerge {store edited : List (List String)} {k : String}
    {r : List String} :
    r ∈ upsertMerge store edited k ↔
      (r ∈ store ∧ itemOf r ≠ k ∧ itemOf r ∉ sentinelItems) ∨
      (r ∈ edited ∧ itemOf r = k ∧ itemOf r ∉ sentinelItems) := by
  simp [upsertMerge, List.mem_filter]

/-- Reading a named column out of a row built by mapping a function over the
schema returns the function value at that column name. -/
theorem colVal_map (sch : List String) (f : String → String) (col : String)
    (h : col ∈ sch) : colVal sch (sch.map f) col = f col := by
  induction sch with
  | nil => cases h
  | cons a tl ih =>
    rcases eq_or_ne col a with rfl | hne
    · simp [colVal, List.indexOf_cons_self]
    · have htl : col ∈ tl := by
        rcases List.mem_cons.mp h with h1 | h1
        · exact absurd h1 hne
        · exact h1
      have hrec := ih htl
      simpa [colVal, List.indexOf_cons_ne _ hne.symm] using hrec

/-- Dropping the Status column (position 3) does not change the Item value
(position 0) of a row. -/
theorem itemOf_dropStatus (row : List String) :
    itemOf (dropStatus row) = itemOf row := by
  cases row with
  | nil => rfl
  | cons a tl => rfl

/-- Grid with 11 rows and 2 columns, as read from a PIG sheet with nothing
ever entered in spreadsheet column C: the frame has two columns, so the
column label 2 demanded by reference C11 is outside the Series index. -/
def exNarrowGrid : Grid := List.replicate 11 [some "a", some "b"]

/-- Claim C4 (code bug): the claim and the defaulting intent of the source
(its except clause lists IndexError and ValueError) promise the sentinel and
a never-failing mapping on out-of-range coordinates, but an out-of-range
COLUMN raises KeyError, which escapes the handler, and process_pig_file
aborts with its failure return instead of producing a record: here the
mapped field "SEO Enhanced Bullets 1" carries reference C11, and on an
11-row, 2-column grid its extraction raises, so no record at all is
produced. -/
theorem C4_out_of_range_column_is_fatal :
    List.lookup "SEO Enhanced Bullets 1" ALL_MAPPINGS = some "C11" ∧
    extract_cell_value exNarrowGrid "C11" = .error () ∧
    process_pig_file exNarrowGrid = none :=
  ⟨by decide, rfl, rfl⟩

/-- Claim C7: every cell of the record prepared for insertion by the Update
handler (Category and Status overwritten, columns reordered, then the
replacement of src/app.py line 881 applied) differs from the sentinel
"not in pig", so the record merged into pig_data never contains the
sentinel. -/
theorem C7_stored_record_has_no_sentinel (e : String → String) (c s v : String)
    (hv : v ∈ prepareEdited e c s) : v ≠ "not in pig" := by
  rcases List.mem_map.mp hv with ⟨u, _, rfl⟩
  by_cases hu : u = "not in pig"
  · rw [cleanCell, if_pos hu]
    decide
  · rw [cleanCell, if_neg hu]
    exact hu

/-- Witness for C7: a grid whose every field is unmapped produces sentinel
cells, and the prepared record carries the empty string in their place. -/
theorem C7_stored_record_has_no_sentinel_witness :
    ("" ∈ prepareEdited (fun _ => "not in pig") "Cookware" "active") ∧
    ("" : String) ≠ "not in pig" :=
  ⟨by decide,
   C7_stored_record_has_no_sentinel (fun _ => "not in pig") "Cookware" "active" "" (by decide)⟩

/-- Claim C10: the prepared record stores the session-selected category and
status in the Category and Status columns, whatever the edited grid held
there, and every other column holds the edited grid value for that column
(after the sentinel-to-empty translation of src/app.py line 881, stated by
C7). -/
theorem C10_category_status_from_selection (e : String → String) (c s : String)
    (hc : c ≠ "not in pig") (hs : s ≠ "not in pig") :
    colVal STORE_COLUMNS (prepareEdited e c s) "Category" = c ∧
    colVal STORE_COLUMNS (prepareEdited e c s) "Status" = s ∧
    ∀ col ∈ STORE_COLUMNS, col ≠ "Category" → col ≠ "Status" →
      colVal STORE_COLUMNS (prepareEdited e c s) col = cleanCell (e col) := by
  have hmap : prepareEdited e c s = STORE_COLUMNS.map
      (fun col => cleanCell (if col = "Status" then s else if col = "Category" then c else e col)) := by
    simp [prepareEdited, List.map_map]
  refine ⟨?_, ?_, ?_⟩
  · rw [hmap, colVal_map _ _ _ (by decide)]
    rw [if_neg (by decide), if_pos rfl, cleanCell, if_neg hc]
  · rw [hmap, colVal_map _ _ _ (by decide)]
    rw [if_pos rfl, cleanCell, if_neg hs]
  · intro col hmem h1 h2
    rw [hmap, colVal_map _ _ _ hmem, if_neg h2, if_neg h1]

/-- Witness for C10 at a concrete grid and concrete selections. -/
theorem C10_category_status_from_selection_witness :
    (("Cookware" : String) ≠ "not in pig" ∧ ("active" : String) ≠ "not in pig") ∧
    (colVal STORE_COLUMNS (prepareEdited (fun _ => "z") "Cookware" "active") "Category" = "Cookware" ∧
     colVal STORE_COLUMNS (prepareEdited (fun _ => "z") "Cookware" "active") "Status" = "active" ∧
     ∀ col ∈ STORE_COLUMNS, col ≠ "Category" → col ≠ "Status" →
       colVal STORE_COLUMNS (prepareEdited (fun _ => "z") "Cookware" "active") col
         = cleanCell ((fun _ => "z") col)) :=
  ⟨⟨by decide, by decide⟩,
   C10_category_status_from_selection (fun _ => "z") "Cookware" "active" (by decide) (by decide)⟩

/-- Claim C1 counterexample: the claim asserts that rows with other Item
values are carried over by the upsert for EVERY store state, yet a stored
row whose Item is "no item" is dropped by the rebuild even though its Item
differs from the upserted key. -/
theorem C1_sentinel_row_not_carried_over :
    itemOf (mkItemRow "no item") ≠ itemOf (mkItemRow "HB1") ∧
    mkItemRow "no item" ∉
      upsertMerge [mkItemRow "no item"] [mkItemRow "HB1"] (itemOf (mkItemRow "HB1")) := by
  decide

/-- Claim C1 as amended: for every store state and accepted record e whose
Item is not one of the placeholder sentinels, the upsert replaces by key:
e is stored, the only stored row with e's Item is e itself (whole-row
replacement, not a field merge), every other stored row with a different
non-sentinel Item is carried over, and nothing else appears. -/
theorem C1_upsert_replaces_by_key (store : List (List String)) (e : List String)
    (he : itemOf e ∉ sentinelItems) :
    e ∈ upsertMerge store [e] (itemOf e) ∧
    (∀ r ∈ upsertMerge store [e] (itemOf e), itemOf r = itemOf e → r = e) ∧
    (∀ r ∈ store, itemOf r ≠ itemOf e → itemOf r ∉ sentinelItems →
      r ∈ upsertMerge store [e] (itemOf e)) ∧
    (∀ r ∈ upsertMerge store [e] (itemOf e), r = e ∨ r ∈ store) := by
  refine ⟨?_, ?_, ?_, ?_⟩
  · exact mem_upsertMerge.mpr (Or.inr ⟨List.mem_singleton_self e, rfl, he⟩)
  · intro r hr hitem
    rcases mem_upsertMerge.mp hr with ⟨_, hne, _⟩ | ⟨hmem, _, _⟩
    · exact absurd hitem hne
    · exact List.mem_singleton.mp hmem
  · intro r hr hne hsent
    exact mem_upsertMerge.mpr (Or.inl ⟨hr, hne, hsent⟩)
  · intro r hr
    rcases mem_upsertMerge.mp hr with ⟨hmem, _, _⟩ | ⟨hmem, _, _⟩
    · exact Or.inr hmem
    · exact Or.inl (List.mem_singleton.mp hmem)

/-- Witness for the amended C1 at a concrete store and record. -/
theorem C1_upsert_replaces_by_key_witness :
    (itemOf (mkItemRow "HB1") ∉ sentinelItems) ∧
    (mkItemRow "HB1" ∈
        upsertMerge [mkItemRow "Z9"] [mkItemRow "HB1"] (itemOf (mkItemRow "HB1")) ∧
     (∀ r ∈ upsertMerge [mkItemRow "Z9"] [mkItemRow "HB1"] (itemOf (mkItemRow "HB1")),
        itemOf r = itemOf (mkItemRow "HB1") → r = mkItemRow "HB1") ∧
     (∀ r ∈ [mkItemRow "Z9"], itemOf r ≠ itemOf (mkItemRow "HB1") →
        itemOf r ∉ sentinelItems →
        r ∈ upsertMerge [mkItemRow "Z9"] [mkItemRow "HB1"] (itemOf (mkItemRow "HB1"))) ∧
     (∀ r ∈ upsertMerge [mkItemRow "Z9"] [mkItemRow "HB1"] (itemOf (mkItemRow "HB1")),
        r = mkItemRow "HB1" ∨ r ∈ [mkItemRow "Z9"])) :=
  ⟨by decide, C1_upsert_replaces_by_key [mkItemRow "Z9"] (mkItemRow "HB1") (by decide)⟩

/-- Claim C3 counterexample: the claim asserts Item uniqueness after the
upsert for EVERY store state, yet two pre-existing rows that share an Item
but differ in another cell both survive an upsert under a different key, and
SELECT DISTINCT does not collapse them because they are not identical. -/
theorem C3_preexisting_duplicate_items_survive :
    ¬ List.Nodup
      ((upsertMerge [exRowDupA1, exRowDupA2] [mkItemRow "B"] (itemOf (mkItemRow "B"))).map
        itemOf) := by
  decide

/-- Claim C3 as amended: if the Item values of the store are unique before
the upsert, then after upserting one accepted record the Item values of
pig_data are again unique; the upsert itself never introduces a duplicate
Item. -/
theorem C3_upsert_preserves_unique_items (store : List (List String)) (e : List String)
    (h : List.Nodup (store.map itemOf)) :
    List.Nodup ((upsertMerge store [e] (itemOf e)).map itemOf) := by
  have hbase : List.Nodup
      (((store.filter (fun r => decide (itemOf r ≠ itemOf e ∧ itemOf r ∉ sentinelItems))) ++
        ([e].filter (fun r => decide (itemOf r = itemOf e ∧ itemOf r ∉ sentinelItems)))).map
        itemOf) := by
    rw [List.map_append, List.nodup_append]
    refine ⟨?_, ?_, ?_⟩
    · exact List.Nodup.sublist ((List.filter_sublist store).map itemOf) h
    · exact List.Nodup.sublist ((List.filter_sublist [e]).map itemOf) (by simp)
    · intro x hx1 hx2
      rcases List.mem_map.mp hx1 with ⟨r, hr, rfl⟩
      rcases List.mem_map.mp hx2 with ⟨t, ht, hxt⟩
      have hrprop := (List.mem_filter.mp hr).2
      have htprop := (List.mem_filter.mp ht).2
      rw [decide_eq_true_eq] at hrprop htprop
      exact hrprop.1 (hxt ▸ htprop.1)
  exact List.Nodup.sublist ((List.dedup_sublist _).map itemOf) hbase

/-- Witness for the amended C3 at a concrete store and record. -/
theorem C3_upsert_preserves_unique_items_witness :
    List.Nodup (([mkItemRow "Z9"]).map itemOf) ∧
    List.Nodup
      ((upsertMerge [mkItemRow "Z9"] [mkItemRow "HB1"] (itemOf (mkItemRow "HB1"))).map
        itemOf) :=
  ⟨by decide, C3_upsert_preserves_unique_items [mkItemRow "Z9"] (mkItemRow "HB1") (by decide)⟩

/-- Claim C5: rows whose Item is "no item" or "no_item" never survive the
merge-in step, whatever their other cells hold and whether they come from
the old store or the edited data; and a store kept free of such rows keeps
the local side of the publish export free of them as well. -/
theorem C5_sentinel_items_never_survive (store edited : List (List String)) (k : String) :
    (∀ r ∈ upsertMerge store edited k, itemOf r ∉ sentinelItems) ∧
    ((∀ r ∈ store, itemOf r ∉ sentinelItems) →
      ∀ r ∈ localView store, itemOf r ∉ sentinelItems) := by
  constructor
  · intro r hr
    rcases mem_upsertMerge.mp hr with ⟨_, _, hs⟩ | ⟨_, _, hs⟩
    · exact hs
    · exact hs
  · intro hstore r hr
    rw [localView, List.mem_mergeSort, List.mem_dedup] at hr
    rcases List.mem_map.mp hr with ⟨t, ht, rfl⟩
    rw [itemOf_dropStatus]
    exact hstore t ht

/-- Witness for C5 at a concrete store, edited set and key. -/
theorem C5_sentinel_items_never_survive_witness :
    (mkItemRow "HB1" ∈ upsertMerge [mkItemRow "no_item"] [mkItemRow "HB1"] "HB1") ∧
    itemOf (mkItemRow "HB1") ∉ sentinelItems :=
  ⟨by decide,
   (C5_sentinel_items_never_survive [mkItemRow "no_item"] [mkItemRow "HB1"] "HB1").1
     (mkItemRow "HB1") (by decide)⟩

/-- Claim C8 counterexample: the claim puts the local side of the publish
export at exactly 44 columns, but the schema obtained from the store columns
by excluding Status has 45 columns (the spreadsheet column range A-AS). -/
theorem C8_local_schema_has_45_columns :
    LOCAL_COLUMNS.length = 45 ∧ LOCAL_COLUMNS.length ≠ 44 := by
  decide

/-- Claim C8 as amended: the local side of the publish export is the store
content with the Status column excluded, its schema is exactly the 45-name
canonical column order (range A-AS), and its rows are ordered by Item. -/
theorem C8_local_side_schema_and_order :
    "Status" ∉ LOCAL_COLUMNS ∧
    LOCAL_COLUMNS = COLUMN_ORDER ∧
    LOCAL_COLUMNS.length = 45 ∧
    ∀ store : List (List String),
      List.Pairwise (fun r t => itemOf r ≤ itemOf t) (localView store) := by
  refine ⟨by decide, by decide, by decide, ?_⟩
  intro store
  have hs := @List.sorted_mergeSort (List String)
      (fun r t : List String => decide (itemOf r ≤ itemOf t))
      (by
        intro a b c h1 h2
        simp only [decide_eq_true_eq] at h1 h2 ⊢
        exact le_trans h1 h2)
      (by
        intro a b
        rw [Bool.or_eq_true]
        simp only [decide_eq_true_eq]
        exact le_total _ _)
      ((store.map dropStatus).dedup)
  exact hs.imp (fun hab => of_decide_eq_true hab)

/-- Claim C6: a fetched vendor sheet with at least 67 columns is sliced to
exactly the Item column joined with the zero-indexed column range 45..66
(spreadsheet columns AT-BO, 22 columns); a vendor sheet with fewer columns
yields no vendor slice (the source surfaces a warning) and the publish
export then equals the local session data alone. -/
theorem C6_vendor_slice_and_fallback (v : VSheet) (session : List (List String)) :
    (67 ≤ v.cols.length →
      ∃ w, sliceVendor v = some w ∧
        w.cols.length = 23 ∧
        w.cols.headD "" = "Item" ∧
        ∀ i, i < 22 → w.cols.getD (i + 1) "" = v.cols.getD (45 + i) "") ∧
    (v.cols.length < 67 →
      sliceVendor v = none ∧
      publishExport session (some v) = { cols := LOCAL_COLUMNS, rows := session }) := by
  constructor
  · intro h
    have h66 : 66 < v.cols.length := h
    refine ⟨{ cols := "Item" :: ((v.cols.drop 45).take 22),
              rows := v.rows.map (fun r => r.headD "" :: ((r.drop 45).take 22)) },
            by rw [sliceVendor, if_pos h66], ?_, rfl, ?_⟩
    · simp only [List.length_cons, List.length_take, List.length_drop]
      omega
    · intro i hi
      rw [List.getD_cons_succ, List.getD_eq_getElem?_getD, List.getD_eq_getElem?_getD,
        List.getElem?_take_of_lt hi, List.getElem?_drop]
  · intro h
    have h66 : ¬ 66 < v.cols.length := by omega
    have hnone : sliceVendor v = none := by rw [sliceVendor, if_neg h66]
    refine ⟨hnone, ?_⟩
    simp [publishExport, hnone]

/-- Witness for C6: both branches exercised at concrete vendor sheets, one
with 67 columns and one with a single column. -/
theorem C6_vendor_slice_and_fallback_witness :
    (67 ≤ exVendor67.cols.length ∧
      (∃ w, sliceVendor exVendor67 = some w ∧
        w.cols.length = 23 ∧
        w.cols.headD "" = "Item" ∧
        ∀ i, i < 22 → w.cols.getD (i + 1) "" = exVendor67.cols.getD (45 + i) "")) ∧
    (exVendorShort.cols.length < 67 ∧
      (sliceVendor exVendorShort = none ∧
        publishExport [mkItemRow "HB1"] (some exVendorShort)
          = { cols := LOCAL_COLUMNS, rows := [mkItemRow "HB1"] })) :=
  ⟨⟨by decide, (C6_vendor_slice_and_fallback exVendor67 []).1 (by decide)⟩,
   ⟨by decide, (C6_vendor_slice_and_fallback exVendorShort [mkItemRow "HB1"]).2 (by decide)⟩⟩

/-- Claim C2: merging local rows with Item set A, B against vendor rows with
Item set B, C produces exactly the rows for the union A, B, C; the A row
carries the empty string in every vendor-owned cell, the C row carries the
empty string in every local-owned cell, and the B row carries both its local
and its vendor cells. -/
theorem C2_merge_is_full_outer_union (ra rb vb vc : List String) (vcols : List String)
    (ha : itemOf ra = "A") (hb : itemOf rb = "B")
    (hvb : itemOf vb = "B") (hvc : itemOf vc = "C") :
    mergeRows [ra, rb] { cols := vcols, rows := [vb, vc] } =
      ["A" :: (ra.drop 1 ++ List.replicate (vcols.length - 1) ""),
       "B" :: (rb.drop 1 ++ vb.drop 1),
       "C" :: (List.replicate 44 "" ++ vc.drop 1)] ∧
    (mergeRows [ra, rb] { cols := vcols, rows := [vb, vc] }).map itemOf = ["A", "B", "C"] := by
  have hw : LOCAL_COLUMNS.length - 1 = 44 := by decide
  have hres : mergeRows [ra, rb] { cols := vcols, rows := [vb, vc] } =
      ["A" :: (ra.drop 1 ++ List.replicate (vcols.length - 1) ""),
       "B" :: (rb.drop 1 ++ vb.drop 1),
       "C" :: (List.replicate 44 "" ++ vc.drop 1)] := by
    rw [mergeRows]
    simp only [List.map_cons, List.map_nil, ha, hb, hvb, hvc]
    rw [show uniqueFirst (["A", "B"] ++ ["B", "C"]) = ["A", "B", "C"] by decide]
    simp [joinSide, List.filter_cons, ha, hb, hvb, hvc, hw]
  refine ⟨hres, ?_⟩
  rw [hres]
  simp [itemOf]

/-- Witness for C2 at concrete local and vendor rows. -/
theorem C2_merge_is_full_outer_union_witness :
    (itemOf ("A" :: List.replicate 44 "la") = "A" ∧
     itemOf ("B" :: List.replicate 44 "lb") = "B" ∧
     itemOf ("B" :: List.replicate 22 "wb") = "B" ∧
     itemOf ("C" :: List.replicate 22 "wc") = "C") ∧
    (mergeRows [("A" :: List.replicate 44 "la"), ("B" :: List.replicate 44 "lb")]
        { cols := "Item" :: List.replicate 22 "VC",
          rows := [("B" :: List.replicate 22 "wb"), ("C" :: List.replicate 22 "wc")] } =
      ["A" :: (("A" :: List.replicate 44 "la").drop 1 ++
          List.replicate (("Item" :: List.replicate 22 "VC").length - 1) ""),
       "B" :: (("B" :: List.replicate 44 "lb").drop 1 ++
          ("B" :: List.replicate 22 "wb").drop 1),
       "C" :: (List.replicate 44 "" ++ ("C" :: List.replicate 22 "wc").drop 1)] ∧
     (mergeRows [("A" :: List.replicate 44 "la"), ("B" :: List.replicate 44 "lb")]
        { cols := "Item" :: List.replicate 22 "VC",
          rows := [("B" :: List.replicate 22 "wb"), ("C" :: List.replicate 22 "wc")] }).map
        itemOf = ["A", "B", "C"]) :=
  ⟨⟨rfl, rfl, rfl, rfl⟩,
   C2_merge_is_full_outer_union ("A" :: List.replicate 44 "la")
     ("B" :: List.replicate 44 "lb") ("B" :: List.replicate 22 "wb")
     ("C" :: List.replicate 22 "wc") ("Item" :: List.replicate 22 "VC") rfl rfl rfl rfl⟩

/-- Claim C9: the render of the filter engine is claimed to return the
dataset narrowed by every filter pair holding both a column and a nonempty
selection.  The translation shows the code instead applies the filters of
the first K slots where K counts the active pairs, so in the reachable state
exFilterSlots (slot 0 column chosen, selection cleared; slot 1 column and
selection chosen) render returns the UNFILTERED table while the narrowing
demanded by the claim keeps only the matching row: the slip is using the
active-pair count as a slot bound. -/
theorem C9_render_skips_later_filter :
    renderResult ["c"] exFilterRows exFilterSlots = [["x"], ["y"]] ∧
    applyFiltersUpTo ["c"] exFilterRows exFilterSlots exFilterSlots.length = [["x"]] ∧
    renderResult ["c"] exFilterRows exFilterSlots ≠
      applyFiltersUpTo ["c"] exFilterRows exFilterSlots exFilterSlots.length := by
  decide

end PigManager
